import Mathlib

/-!
Shallow embedding of the `updateissue` error-monitoring SDK (`src/index.ts`)
and proofs of the specification claims.

The embedding models:
* the JavaScript regex matching used by `ErrorMonitor.reportError` to parse
  stack traces (a small backtracking engine specialised to the two literal
  patterns appearing in the source),
* the payload construction and try/catch structure of `reportError`,
* `wrapFunction`, the monkey-patching lifecycle `start`/`stop` over an
  explicit state of runtime globals, and the module-level singleton helpers
  `monitor` and `issueUpdate`.
-/

set_option maxRecDepth 4000

/-! ## Character classes of the JavaScript regexes

The source uses two regexes over stack-trace lines:
`/\s*at\s+(.*?)\s+\((.*):(\d+):(\d+)\)/` and `/\s*at\s+(.*):(\d+):(\d+)/`.
We model `\s`, `\d` and `.` with JavaScript semantics. -/

/-- JavaScript `\s`: whitespace characters per ECMA-262. -/
def isJsWhitespace (c : Char) : Bool :=
  c == ' ' || c == '\t' || c == '\n' || c == '\r' || c == '\x0b' || c == '\x0c' ||
  c == ' ' || c == ' ' || (' ' ≤ c && c ≤ ' ') ||
  c == ' ' || c == ' ' || c == ' ' || c == ' ' ||
  c == '　' || c == '﻿'

/-- JavaScript `.` (no `s` flag): any character except line terminators. -/
def isJsDotChar (c : Char) : Bool :=
  !(c == '\n' || c == '\r' || c == ' ' || c == ' ')

/-- JavaScript `\d`. -/
def isJsDigit (c : Char) : Bool :=
  '0' ≤ c && c ≤ '9'

/-- Single-character regex atoms appearing in the two source patterns. -/
inductive Tok where
  | ws
  | digit
  | dot
  | lit (c : Char)
deriving Repr, DecidableEq

def tokMatch : Tok → Char → Bool
  | .ws, c => isJsWhitespace c
  | .digit, c => isJsDigit c
  | .dot, c => isJsDotChar c
  | .lit a, c => c == a

/-! ## Backtracking regex engine

Continuation-passing backtracking matcher with capture groups, reproducing
JavaScript's leftmost-match, greedy/lazy quantifier semantics for the
constructs used by the two source patterns (literals, `\s*`, `\s+`, and
capturing `(.*?)`, `(.*)`, `(\d+)`). -/

/-- Capture environment: group number to captured characters (newest first). -/
abbrev Caps := List (Nat × List Char)

def setCap (cs : Caps) (n : Nat) (v : List Char) : Caps := (n, v) :: cs

def getCap (cs : Caps) (n : Nat) : Option (List Char) :=
  (cs.find? (fun p => p.1 == n)).map (fun p => p.2)

/-- Matcher continuations: remaining input and captures to final captures. -/
abbrev MCont := List Char → Caps → Option Caps

/-- Greedy `t*`: consume as many `t`-characters as possible, backtracking. -/
def starGreedy (t : Tok) : List Char → Caps → MCont → Option Caps
  | [], cs, k => k [] cs
  | c :: rest, cs, k =>
    if tokMatch t c then
      match starGreedy t rest cs k with
      | some r => some r
      | none => k (c :: rest) cs
    else k (c :: rest) cs

/-- Lazy `t*?`: consume as few `t`-characters as possible. -/
def starLazy (t : Tok) : List Char → Caps → MCont → Option Caps
  | s, cs, k =>
    match k s cs with
    | some r => some r
    | none =>
      match s with
      | [] => none
      | c :: rest => if tokMatch t c then starLazy t rest cs k else none

/-- Greedy `t+`. -/
def plusGreedy (t : Tok) (s : List Char) (cs : Caps) (k : MCont) : Option Caps :=
  match s with
  | [] => none
  | c :: rest => if tokMatch t c then starGreedy t rest cs k else none

/-- Capturing greedy `(t*)` with group number `n`; `acc` holds the consumed
characters in reverse. -/
def capStarGreedy (n : Nat) (t : Tok) : List Char → List Char → Caps → MCont → Option Caps
  | acc, [], cs, k => k [] (setCap cs n acc.reverse)
  | acc, c :: rest, cs, k =>
    if tokMatch t c then
      match capStarGreedy n t (c :: acc) rest cs k with
      | some r => some r
      | none => k (c :: rest) (setCap cs n acc.reverse)
    else k (c :: rest) (setCap cs n acc.reverse)

/-- Capturing lazy `(t*?)` with group number `n`. -/
def capStarLazy (n : Nat) (t : Tok) : List Char → List Char → Caps → MCont → Option Caps
  | acc, s, cs, k =>
    match k s (setCap cs n acc.reverse) with
    | some r => some r
    | none =>
      match s with
      | [] => none
      | c :: rest => if tokMatch t c then capStarLazy n t (c :: acc) rest cs k else none

/-- Capturing greedy `(t+)` with group number `n`. -/
def capPlusGreedy (n : Nat) (t : Tok) (s : List Char) (cs : Caps) (k : MCont) : Option Caps :=
  match s with
  | [] => none
  | c :: rest => if tokMatch t c then capStarGreedy n t [c] rest cs k else none

/-- Regexes built from the constructs the two source patterns use. -/
inductive Re where
  | eps
  | tok (t : Tok)
  | seq (r1 r2 : Re)
  | starG (t : Tok)
  | plusG (t : Tok)
  | capStarG (n : Nat) (t : Tok)
  | capStarL (n : Nat) (t : Tok)
  | capPlusG (n : Nat) (t : Tok)

def mRun : Re → List Char → Caps → MCont → Option Caps
  | .eps, s, cs, k => k s cs
  | .tok t, s, cs, k =>
    match s with
    | [] => none
    | c :: rest => if tokMatch t c then k rest cs else none
  | .seq r1 r2, s, cs, k => mRun r1 s cs (fun s2 cs2 => mRun r2 s2 cs2 k)
  | .starG t, s, cs, k => starGreedy t s cs k
  | .plusG t, s, cs, k => plusGreedy t s cs k
  | .capStarG n t, s, cs, k => capStarGreedy n t [] s cs k
  | .capStarL n t, s, cs, k => capStarLazy n t [] s cs k
  | .capPlusG n t, s, cs, k => capPlusGreedy n t s cs k

/-- Leftmost search, as JavaScript `String.prototype.match` with a
non-global, non-anchored regex: try a match starting at each position in
turn and return the captures of the first successful one. -/
def reSearch (r : Re) : List Char → Option Caps
  | [] => mRun r [] [] (fun _ cs => some cs)
  | c :: rest =>
    match mRun r (c :: rest) [] (fun _ cs => some cs) with
    | some cs => some cs
    | none => reSearch r rest

def reSeq (l : List Re) : Re := l.foldr Re.seq Re.eps

/-- `/\s*at\s+(.*?)\s+\((.*):(\d+):(\d+)\)/` from `reportError`. -/
def pat1 : Re := reSeq
  [.starG .ws, .tok (.lit 'a'), .tok (.lit 't'), .plusG .ws,
   .capStarL 1 .dot, .plusG .ws, .tok (.lit '('), .capStarG 2 .dot,
   .tok (.lit ':'), .capPlusG 3 .digit, .tok (.lit ':'), .capPlusG 4 .digit,
   .tok (.lit ')')]

/-- `/\s*at\s+(.*):(\d+):(\d+)/` from `reportError`. -/
def pat2 : Re := reSeq
  [.starG .ws, .tok (.lit 'a'), .tok (.lit 't'), .plusG .ws,
   .capStarG 1 .dot, .tok (.lit ':'), .capPlusG 2 .digit, .tok (.lit ':'),
   .capPlusG 3 .digit]

/-! ## Stack-frame extraction (`reportError`, the scanning loop) -/

/-- The four mutable locals of the extraction loop in `reportError`. -/
structure StackInfo where
  functionName : Option String
  fileName : Option String
  line : Option String
  col : Option String
deriving Repr, DecidableEq

def emptyStackInfo : StackInfo := ⟨none, none, none, none⟩

def capStr (cs : Caps) (n : Nat) : Option String :=
  (getCap cs n).map (fun l => String.mk l)

/-- JavaScript `String.prototype.includes`. -/
def listContainsSub (needle : List Char) : List Char → Bool
  | [] => needle.isPrefixOf []
  | c :: rest => needle.isPrefixOf (c :: rest) || listContainsSub needle rest

def includesSub (s sub : String) : Bool := listContainsSub sub.data s.data

/-- One iteration of the extraction loop's matching step: try the first
regex; on failure try the second (which leaves `functionName` untouched);
on both failing leave everything untouched. -/
def stepInfo (info : StackInfo) (lineStr : String) : StackInfo :=
  match reSearch pat1 lineStr.data with
  | some caps =>
    { functionName := capStr caps 1, fileName := capStr caps 2,
      line := capStr caps 3, col := capStr caps 4 }
  | none =>
    match reSearch pat2 lineStr.data with
    | some caps =>
      { info with fileName := capStr caps 1, line := capStr caps 2,
                  col := capStr caps 3 }
    | none => info

/-- The loop's break condition
`fileName && !fileName.includes('node_modules') && !fileName.includes('internal/')`,
including the JavaScript falsiness of the empty string. -/
def breakHere (info : StackInfo) : Bool :=
  match info.fileName with
  | some f => !(f == "") && !includesSub f "node_modules" && !includesSub f "internal/"
  | none => false

def extractLoop : List String → StackInfo → StackInfo
  | [], info => info
  | l :: rest, info =>
    let i2 := stepInfo info l
    if breakHere i2 then i2 else extractLoop rest i2

/-- JavaScript `split("\n")` over the character list: `"" → [""]`, and every
newline separates two (possibly empty) fields. -/
def splitLines : List Char → List (List Char)
  | [] => [[]]
  | c :: rest =>
    let r := splitLines rest
    if c == '\n' then [] :: r
    else
      match r with
      | [] => [[c]]
      | l :: ls => (c :: l) :: ls

/-- Stack extraction: split on newlines, skip the first line (the error
summary), scan the rest. -/
def extractStackInfo (stack : String) : StackInfo :=
  match splitLines stack.data with
  | [] => emptyStackInfo
  | _ :: rest => extractLoop (rest.map (fun l => String.mk l)) emptyStackInfo

/-- The file component a single line contributes, if it matches either
pattern (used to state the fallback behaviour of the loop). -/
def lineMatchFile (l : String) : Option String :=
  match reSearch pat1 l.data with
  | some caps => capStr caps 2
  | none =>
    match reSearch pat2 l.data with
    | some caps => capStr caps 1
    | none => none

/-- A line that matches one of the patterns with an "internal" file: one the
break condition rejects (empty, `node_modules`, or `internal/`). -/
def lineInternalB (l : String) : Bool :=
  match lineMatchFile l with
  | some f => f == "" || includesSub f "node_modules" || includesSub f "internal/"
  | none => false

example : extractStackInfo "Error: x\n    at foo (/app/a.js:10:5)" =
    ⟨some "foo", some "/app/a.js", some "10", some "5"⟩ := by decide

/-! ## Values, options and the Monitor -/

/-- JavaScript values as far as the SDK observes them: enough to model
thrown values, rejection reasons, and `Error` objects (`message` plus an
optional engine-supplied `stack` string). -/
inductive JsValue where
  | undef
  | null
  | bool (b : Bool)
  | num (n : Int)
  | str (s : String)
  | errObj (message : String) (stack : Option String)
  | obj (id : Nat)
deriving Repr, DecidableEq

/-- The `err : Error | string` argument of `reportError`. -/
inductive ErrArg where
  | errObj (message : String) (stack : Option String)
  | strArg (s : String)
deriving Repr, DecidableEq

/-- The `errorType` classification tag. -/
inductive ErrorType where
  | uncaught
  | promise
  | manual
deriving Repr, DecidableEq

/-- Fully-resolved configuration after the constructor merges the caller's
options over the documented defaults (`MonitorOptions` with every field
present). `extras` models the `[key: string]: any` pass-through fields. -/
structure MonitorOptions where
  endpoint : String
  enableConsoleErrors : Bool
  enablePromiseRejections : Bool
  enableFunctionWrapping : Bool
  enableFetchMonitoring : Bool
  monitorHttpErrors : Bool
  httpErrorCodes : List Nat
  notifier : Option String
  extras : List (String × String)
deriving Repr, DecidableEq

/-- The caller-supplied options object: absent fields are `none`. -/
structure MonitorOptionsArg where
  endpoint : Option String
  enableConsoleErrors : Option Bool
  enablePromiseRejections : Option Bool
  enableFunctionWrapping : Option Bool
  enableFetchMonitoring : Option Bool
  monitorHttpErrors : Option Bool
  httpErrorCodes : Option (List Nat)
  notifier : Option String
  extras : List (String × String)
deriving Repr, DecidableEq

/-- An options object with no fields set (`{}`). -/
def noOptions : MonitorOptionsArg :=
  ⟨none, none, none, none, none, none, none, none, []⟩

/-- The constructor's `{ ...defaults, ...options }` merge. -/
def mergeOptions (o : MonitorOptionsArg) : MonitorOptions where
  endpoint := o.endpoint.getD "https://your-backend.com/webhook"
  enableConsoleErrors := o.enableConsoleErrors.getD true
  enablePromiseRejections := o.enablePromiseRejections.getD true
  enableFunctionWrapping := o.enableFunctionWrapping.getD true
  enableFetchMonitoring := o.enableFetchMonitoring.getD true
  monitorHttpErrors := o.monitorHttpErrors.getD true
  httpErrorCodes := o.httpErrorCodes.getD [400, 401, 403, 404, 429, 500, 502, 503, 504]
  notifier := o.notifier
  extras := o.extras

/-- References to runtime function objects (handlers, console sink, fetch
implementations). Distinct numbers model distinct object identities. -/
abbrev FRef := Nat

/-- The private state of an `ErrorMonitor` instance. -/
structure Monitor where
  apiKey : String
  options : MonitorOptions
  originalHandlers : List (String × FRef)
  isActive : Bool
deriving Repr, DecidableEq

/-- `new ErrorMonitor(apiKey, options)`. -/
def mkMonitor (apiKey : String) (o : MonitorOptionsArg) : Monitor :=
  ⟨apiKey, mergeOptions o, [], false⟩

/-! ## reportError -/

/-- Ambient engine behaviour `reportError` depends on: the stack attached to
a freshly constructed `Error`, and the current ISO-8601 timestamp. -/
structure Runtime where
  errStack : String → Option String
  now : String

/-- Outcome of the single outbound `fetch` call made by `reportError`:
either the transport throws/rejects with a value, or it yields a response
with an `ok` flag and a numeric status. -/
inductive FetchOutcome where
  | reject (e : JsValue)
  | resp (ok : Bool) (status : Nat)
deriving Repr, DecidableEq

/-- The JSON document `reportError` posts. -/
structure ErrorPayload where
  event : String
  error : String
  stack : Option String
  file : Option String
  function : Option String
  line : Option String
  col : Option String
  data : MonitorOptions
  timestamp : String
  errorType : ErrorType
deriving Repr, DecidableEq

/-- The outbound request: URL, bearer token, and (structured) body. -/
structure HttpRequest where
  url : String
  bearer : String
  payload : ErrorPayload
deriving Repr, DecidableEq

/-- The `try` block of `reportError`: normalize the error, parse its stack,
build the payload, send it, and treat a non-`ok` response as a thrown
`Error`. Returns the issued request together with the fallible remainder. -/
def reportErrorTry (rt : Runtime) (m : Monitor) (event : String) (err : ErrArg)
    (errorType : ErrorType) (transport : FetchOutcome) :
    HttpRequest × Except JsValue Unit :=
  let errorObj : String × Option String :=
    match err with
    | .errObj msg st => (msg, st)
    | .strArg s => (s, rt.errStack s)
  let stackText : String :=
    match errorObj.2 with
    | some s => s
    | none => ""
  let info := extractStackInfo stackText
  let payload : ErrorPayload :=
    { event := event, error := errorObj.1, stack := errorObj.2,
      file := info.fileName, function := info.functionName,
      line := info.line, col := info.col, data := m.options,
      timestamp := rt.now, errorType := errorType }
  let req : HttpRequest :=
    { url := m.options.endpoint, bearer := m.apiKey, payload := payload }
  let rest : Except JsValue Unit :=
    match transport with
    | .reject e => .error e
    | .resp ok status =>
      if ok then .ok ()
      else
        let msg := "Error reporting failed with status " ++ toString status
        .error (.errObj msg (rt.errStack msg))
  (req, rest)

/-- `reportError`: the whole body runs inside `try ... catch`, and the
`catch` only logs (`console.error`) the caught value. The outer `Except`
is what the caller of `reportError` observes: `.error` would mean a
synchronous throw or a rejected promise. The payload on `.ok` is the
issued request together with the value logged by the `catch`, if any. -/
def ErrorMonitor.reportError (rt : Runtime) (m : Monitor) (event : String)
    (err : ErrArg) (errorType : ErrorType) (transport : FetchOutcome) :
    Except JsValue (HttpRequest × Option JsValue) :=
  let r := reportErrorTry rt m event err errorType transport
  match r.2 with
  | .ok () => .ok (r.1, none)
  | .error e => .ok (r.1, some e)

/-! ## wrapFunction -/

/-- Resolution of a promise-like value. -/
inductive PromOutcome where
  | resolved (v : JsValue)
  | rejected (e : JsValue)
deriving Repr, DecidableEq

/-- What a call to a JavaScript function does: return a non-thenable value,
return a thenable (promise-like) value, or throw synchronously. -/
inductive FnOutcome where
  | ret (v : JsValue)
  | thenable (r : PromOutcome)
  | thrown (e : JsValue)
deriving Repr, DecidableEq

/-- A JavaScript function as `wrapFunction` sees it: its `name` property and
its call behaviour. -/
structure JsFun where
  name : String
  call : List JsValue → FnOutcome

/-- A wrapped function: its `name` property, and a call behaviour that also
produces the list of `(event, error)` reports issued via `reportError`. -/
structure WrappedFun where
  name : String
  call : List JsValue → FnOutcome × List (String × JsValue)

/-- JavaScript `a || b || c` over the event-name candidates
(`functionName || fn.name || fallback`), with the empty string falsy. -/
def orName (functionName : Option String) (fnName fallback : String) : String :=
  match functionName with
  | some s => if s == "" then (if fnName == "" then fallback else fnName) else s
  | none => if fnName == "" then fallback else fnName

/-- `wrapFunction(fn, functionName?)`: run `fn` inside `try`; a synchronous
throw is reported then re-thrown; a thenable gets a `.catch` attached that
reports then re-rejects; anything else is returned untouched. The `name`
property of the wrapper is set to `fn.name` by `Object.defineProperty`. -/
def ErrorMonitor.wrapFunction (_m : Monitor) (fn : JsFun)
    (functionName : Option String) : WrappedFun where
  name := fn.name
  call := fun args =>
    match fn.call args with
    | .thrown e =>
      (.thrown e, [(orName functionName fn.name "anonymous_function", e)])
    | .ret v => (.ret v, [])
    | .thenable (.resolved v) => (.thenable (.resolved v), [])
    | .thenable (.rejected e) =>
      (.thenable (.rejected e),
       [(orName functionName fn.name "anonymous_async_function", e)])

/-! ## Runtime globals and the start/stop lifecycle

`start` patches ambient globals; `stop` restores them from the monitor's
`originalHandlers` registry (a JavaScript `Map`). The environment records,
for each facility the source branches on, whether it exists
(`typeof x !== 'undefined'` together with the method/feature tests), and the
current occupants of the patched slots. `fresh` is an allocator for the
identities of the closures `start` creates. -/

structure Env where
  hasProcess : Bool
  hasWindow : Bool
  hasConsole : Bool
  hasGlobal : Bool
  consoleError : FRef
  windowFetch : Option FRef
  globalFetch : Option FRef
  processUncaughtListeners : List FRef
  processRejectionListeners : List FRef
  windowRejectionListeners : List FRef
  windowErrorListeners : List FRef
  fresh : FRef
deriving Repr, DecidableEq

/-- Every reference currently stored in a listener list predates `fresh`;
holds of any environment whose references were all allocated through
`fresh` (closure identities in JavaScript are necessarily distinct from
all existing objects). -/
def Env.wfb (e : Env) : Bool :=
  e.processUncaughtListeners.all (fun r => decide (r < e.fresh)) &&
  e.processRejectionListeners.all (fun r => decide (r < e.fresh)) &&
  e.windowRejectionListeners.all (fun r => decide (r < e.fresh)) &&
  e.windowErrorListeners.all (fun r => decide (r < e.fresh))

/-- Lookup in the `originalHandlers` map (`Map.get`). -/
def mapGet : List (String × FRef) → String → Option FRef
  | [], _ => none
  | (k2, v) :: rest, k => if k2 = k then some v else mapGet rest k

/-- Update in the `originalHandlers` map (`Map.set`): overwrite in place or
append. -/
def mapSet : List (String × FRef) → String → FRef → List (String × FRef)
  | [], k, v => [(k, v)]
  | (k2, v2) :: rest, k, v =>
    if k2 = k then (k2, v) :: rest else (k2, v2) :: mapSet rest k v

/-- `process.removeListener`: removes at most one matching listener (the
most recently added instance). -/
def eraseLast (l : List FRef) (h : FRef) : List FRef :=
  (l.reverse.erase h).reverse

/-- `window.removeEventListener`: removes the matching registered listener. -/
def eraseFirst (l : List FRef) (h : FRef) : List FRef :=
  l.erase h

/-- `start` block 1: `process.on('uncaughtException', ...)` — gated only by
the presence of `process`/`process.on`, with no configuration toggle. -/
def startStep1 (m : Monitor) (env : Env) : Monitor × Env :=
  if env.hasProcess then
    let h := env.fresh
    ({ m with originalHandlers := mapSet m.originalHandlers "uncaughtException" h },
     { env with processUncaughtListeners := env.processUncaughtListeners ++ [h],
                fresh := env.fresh + 1 })
  else (m, env)

/-- `start` block 2: unhandled promise rejections, gated by
`enablePromiseRejections`; browser `window.addEventListener` takes priority
over `process.on`. -/
def startStep2 (m : Monitor) (env : Env) : Monitor × Env :=
  if m.options.enablePromiseRejections then
    if env.hasWindow then
      let h := env.fresh
      ({ m with originalHandlers := mapSet m.originalHandlers "unhandledrejection" h },
       { env with windowRejectionListeners := env.windowRejectionListeners ++ [h],
                  fresh := env.fresh + 1 })
    else if env.hasProcess then
      let h := env.fresh
      ({ m with originalHandlers := mapSet m.originalHandlers "unhandledRejection" h },
       { env with processRejectionListeners := env.processRejectionListeners ++ [h],
                  fresh := env.fresh + 1 })
    else (m, env)
  else (m, env)

/-- `start` block 3: replace `console.error`, gated by
`enableConsoleErrors` and the presence of `console`; the registry keeps the
original sink. -/
def startStep3 (m : Monitor) (env : Env) : Monitor × Env :=
  if m.options.enableConsoleErrors && env.hasConsole then
    let orig := env.consoleError
    let h := env.fresh
    ({ m with originalHandlers := mapSet m.originalHandlers "console.error" orig },
     { env with consoleError := h, fresh := env.fresh + 1 })
  else (m, env)

/-- `start` block 4: `window.addEventListener('error', ...)` — gated only by
the presence of `window`, with no configuration toggle. -/
def startStep4 (m : Monitor) (env : Env) : Monitor × Env :=
  if env.hasWindow then
    let h := env.fresh
    ({ m with originalHandlers := mapSet m.originalHandlers "error" h },
     { env with windowErrorListeners := env.windowErrorListeners ++ [h],
                fresh := env.fresh + 1 })
  else (m, env)

/-- `start` block 5: replace `window.fetch`, gated by
`enableFetchMonitoring`, the presence of `window`, and a truthy
`window.fetch`; the registry keeps the original fetch. -/
def startStep5 (m : Monitor) (env : Env) : Monitor × Env :=
  if m.options.enableFetchMonitoring && env.hasWindow then
    match env.windowFetch with
    | some orig =>
      let h := env.fresh
      ({ m with originalHandlers := mapSet m.originalHandlers "fetch" orig },
       { env with windowFetch := some h, fresh := env.fresh + 1 })
    | none => (m, env)
  else (m, env)

/-- `start` block 6: replace `global.fetch`, gated by
`enableFetchMonitoring`, the presence of `global`, and a truthy
`global.fetch`. -/
def startStep6 (m : Monitor) (env : Env) : Monitor × Env :=
  if m.options.enableFetchMonitoring && env.hasGlobal then
    match env.globalFetch with
    | some orig =>
      let h := env.fresh
      ({ m with originalHandlers := mapSet m.originalHandlers "global.fetch" orig },
       { env with globalFetch := some h, fresh := env.fresh + 1 })
    | none => (m, env)
  else (m, env)

/-- `ErrorMonitor.start`: early-return when already active, otherwise mark
active and run the six installation blocks in source order. -/
def ErrorMonitor.start (m : Monitor) (env : Env) : Monitor × Env :=
  if m.isActive then (m, env)
  else
    let p1 := startStep1 { m with isActive := true } env
    let p2 := startStep2 p1.1 p1.2
    let p3 := startStep3 p2.1 p2.2
    let p4 := startStep4 p3.1 p3.2
    let p5 := startStep5 p4.1 p4.2
    startStep6 p5.1 p5.2

/-- `stop` restoration over `process`: remove the registered
uncaught-exception and unhandled-rejection listeners, when present in the
registry. -/
def stopProcess (reg : List (String × FRef)) (env : Env) : Env :=
  if env.hasProcess then
    let env1 :=
      match mapGet reg "uncaughtException" with
      | some h =>
        { env with processUncaughtListeners := eraseLast env.processUncaughtListeners h }
      | none => env
    match mapGet reg "unhandledRejection" with
    | some h =>
      { env1 with processRejectionListeners := eraseLast env1.processRejectionListeners h }
    | none => env1
  else env

/-- `stop` restoration over `window`: remove the registered
unhandled-rejection and error listeners, when present in the registry. -/
def stopWindow (reg : List (String × FRef)) (env : Env) : Env :=
  if env.hasWindow then
    let env1 :=
      match mapGet reg "unhandledrejection" with
      | some h =>
        { env with windowRejectionListeners := eraseFirst env.windowRejectionListeners h }
      | none => env
    match mapGet reg "error" with
    | some h =>
      { env1 with windowErrorListeners := eraseFirst env1.windowErrorListeners h }
    | none => env1
  else env

/-- `stop`: restore `console.error` when recorded and `console` exists. -/
def stopConsole (reg : List (String × FRef)) (env : Env) : Env :=
  match mapGet reg "console.error" with
  | some orig => if env.hasConsole then { env with consoleError := orig } else env
  | none => env

/-- `stop`: restore `window.fetch` when recorded and `window` exists. -/
def stopFetch (reg : List (String × FRef)) (env : Env) : Env :=
  match mapGet reg "fetch" with
  | some orig => if env.hasWindow then { env with windowFetch := some orig } else env
  | none => env

/-- `stop`: restore `global.fetch` when recorded and `global` exists. -/
def stopGlobalFetch (reg : List (String × FRef)) (env : Env) : Env :=
  match mapGet reg "global.fetch" with
  | some orig => if env.hasGlobal then { env with globalFetch := some orig } else env
  | none => env

/-- `ErrorMonitor.stop`: early-return when not active, otherwise mark
inactive, run the restoration blocks in source order, and clear the
registry. -/
def ErrorMonitor.stop (m : Monitor) (env : Env) : Monitor × Env :=
  if m.isActive then
    let reg := m.originalHandlers
    let env1 := stopProcess reg env
    let env2 := stopWindow reg env1
    let env3 := stopConsole reg env2
    let env4 := stopFetch reg env3
    let env5 := stopGlobalFetch reg env4
    ({ m with isActive := false, originalHandlers := [] }, env5)
  else (m, env)

/-! ## Module-level singleton API -/

/-- `monitor(apiKey, options)`: stop any existing global monitor, then
construct, start and store a new one. Returns the new monitor, the new
global-variable contents, and the updated environment. -/
def monitorEntry (glob : Option Monitor) (env : Env) (apiKey : String)
    (o : MonitorOptionsArg) : Monitor × Option Monitor × Env :=
  let env0 :=
    match glob with
    | some g => (ErrorMonitor.stop g env).2
    | none => env
  let p := ErrorMonitor.start (mkMonitor apiKey o) env0
  (p.1, some p.1, p.2)

/-- `issueUpdate(apiKey, event, err, data)`: route through the global
monitor when one exists, ignoring the arguments `apiKey` and `data`;
otherwise report through a temporary monitor that is not stored. Returns
the report outcome and the (unchanged) global-variable contents. -/
def issueUpdate (glob : Option Monitor) (rt : Runtime) (apiKey : String)
    (event : String) (err : ErrArg) (data : MonitorOptionsArg)
    (transport : FetchOutcome) :
    Except JsValue (HttpRequest × Option JsValue) × Option Monitor :=
  match glob with
  | some g => (ErrorMonitor.reportError rt g event err .manual transport, glob)
  | none =>
    let tempMonitor := mkMonitor apiKey data
    (ErrorMonitor.reportError rt tempMonitor event err .manual transport, glob)

/-! ## Concrete instances used by counterexamples and witnesses -/

/-- Does any pre-existing slot or listener list of `e` hold reference `r`? -/
def Env.mentions (e : Env) (r : FRef) : Bool :=
  r == e.consoleError || e.windowFetch == some r || e.globalFetch == some r ||
  e.processUncaughtListeners.contains r || e.processRejectionListeners.contains r ||
  e.windowRejectionListeners.contains r || e.windowErrorListeners.contains r

/-- A representative environment with every facility present. -/
def sampleEnv : Env where
  hasProcess := true
  hasWindow := true
  hasConsole := true
  hasGlobal := true
  consoleError := 0
  windowFetch := some 1
  globalFetch := some 2
  processUncaughtListeners := [3]
  processRejectionListeners := [4]
  windowRejectionListeners := [5]
  windowErrorListeners := [6]
  fresh := 10

/-- A Node-like environment: no `window`, everything else present. -/
def nodeEnv : Env :=
  { sampleEnv with hasWindow := false, windowFetch := none }

/-- An options object turning every capture toggle off. -/
def allTogglesOff : MonitorOptionsArg :=
  { noOptions with
      enableConsoleErrors := some false, enablePromiseRejections := some false,
      enableFunctionWrapping := some false, enableFetchMonitoring := some false,
      monitorHttpErrors := some false }

/-- A monitor in a non-fresh state: already active, with a stale registry
entry recorded against a different environment. -/
def staleMonitor : Monitor where
  apiKey := "k"
  options := mergeOptions noOptions
  originalHandlers := [("console.error", 99)]
  isActive := true

/-- A runtime whose freshly constructed errors carry no stack. -/
def bareRuntime : Runtime where
  errStack := fun _ => none
  now := "2026-01-01T00:00:00.000Z"

/-! ## Theorems -/

/-- Helper: `reportError` always returns `.ok` (the `catch` swallows every
internal failure), whatever the transport does. -/
theorem reportError_total (rt : Runtime) (m : Monitor) (event : String)
    (err : ErrArg) (errorType : ErrorType) (transport : FetchOutcome) :
    ∃ req logged,
      ErrorMonitor.reportError rt m event err errorType transport = .ok (req, logged) := by
  cases h : (reportErrorTry rt m event err errorType transport).2 with
  | ok u =>
    cases u
    exact ⟨(reportErrorTry rt m event err errorType transport).1, none,
      by simp [ErrorMonitor.reportError, h]⟩
  | error e =>
    exact ⟨(reportErrorTry rt m event err errorType transport).1, some e,
      by simp [ErrorMonitor.reportError, h]⟩

/-- Claim C1: for every event string, error-or-string input and
classification, `reportError` never throws synchronously and its promise
never rejects — for every transport behaviour (throw/reject, non-2xx
response, or success) the result is `.ok`, and the internal failure is at
most carried in the logged component. -/
theorem reportError_never_raises (rt : Runtime) (m : Monitor) (event : String)
    (err : ErrArg) (errorType : ErrorType) (transport : FetchOutcome) :
    ∃ req logged,
      ErrorMonitor.reportError rt m event err errorType transport = .ok (req, logged) :=
  reportError_total rt m event err errorType transport

/-- Claim C2: `wrapFunction` preserves the function's `name`; on a
synchronous throw it issues exactly one report and re-throws the identical
value; on a rejected thenable it issues exactly one report and re-rejects
with the identical reason; on a normal (non-thenable) return it returns the
original value with zero reports. -/
theorem wrapFunction_spec (m : Monitor) (fn : JsFun) (label : Option String)
    (args : List JsValue) :
    (ErrorMonitor.wrapFunction m fn label).name = fn.name ∧
    (match fn.call args with
     | .thrown e =>
       (ErrorMonitor.wrapFunction m fn label).call args =
         (.thrown e, [(orName label fn.name "anonymous_function", e)])
     | .ret v =>
       (ErrorMonitor.wrapFunction m fn label).call args = (.ret v, [])
     | .thenable (.resolved v) =>
       (ErrorMonitor.wrapFunction m fn label).call args = (.thenable (.resolved v), [])
     | .thenable (.rejected e) =>
       (ErrorMonitor.wrapFunction m fn label).call args =
         (.thenable (.rejected e),
          [(orName label fn.name "anonymous_async_function", e)])) := by
  refine ⟨rfl, ?_⟩
  cases h : fn.call args with
  | thrown e => simp [ErrorMonitor.wrapFunction, h]
  | ret v => simp [ErrorMonitor.wrapFunction, h]
  | thenable r => cases r <;> simp [ErrorMonitor.wrapFunction, h]

/-- Claim C10: `reportError` never consults `isActive` (nor the handler
registry): a stopped or never-started monitor with the same key and options
issues the identical request with the identical outcome, and the POST is
always performed against the configured endpoint with the bearer key. -/
theorem reportError_ignores_isActive (rt : Runtime) (key : String)
    (opts : MonitorOptions) (reg1 reg2 : List (String × FRef)) (a1 a2 : Bool)
    (event : String) (err : ErrArg) (errorType : ErrorType)
    (transport : FetchOutcome) :
    (ErrorMonitor.reportError rt ⟨key, opts, reg1, a1⟩ event err errorType transport =
       ErrorMonitor.reportError rt ⟨key, opts, reg2, a2⟩ event err errorType transport) ∧
    ∃ req logged,
      ErrorMonitor.reportError rt ⟨key, opts, reg1, a1⟩ event err errorType transport =
        .ok (req, logged) ∧
      req.url = opts.endpoint ∧ req.bearer = key ∧ req.payload.data = opts := by
  refine ⟨rfl, ?_⟩
  cases h : (reportErrorTry rt ⟨key, opts, reg1, a1⟩ event err errorType transport).2 with
  | ok u =>
    cases u
    exact ⟨(reportErrorTry rt ⟨key, opts, reg1, a1⟩ event err errorType transport).1, none,
      by simp [ErrorMonitor.reportError, h], rfl, rfl, rfl⟩
  | error e =>
    exact ⟨(reportErrorTry rt ⟨key, opts, reg1, a1⟩ event err errorType transport).1, some e,
      by simp [ErrorMonitor.reportError, h], rfl, rfl, rfl⟩

/-- Claim C9: with an active global monitor, `issueUpdate` ignores its
`apiKey` and `data` arguments entirely: any two argument choices give the
identical outcome, and the report goes out with the global monitor's
credential and configuration. -/
theorem issueUpdate_ignores_args (g : Monitor) (rt : Runtime)
    (k1 k2 event : String) (err : ErrArg) (d1 d2 : MonitorOptionsArg)
    (transport : FetchOutcome) :
    (issueUpdate (some g) rt k1 event err d1 transport =
       issueUpdate (some g) rt k2 event err d2 transport) ∧
    ∃ req logged,
      (issueUpdate (some g) rt k1 event err d1 transport).1 = .ok (req, logged) ∧
      req.bearer = g.apiKey ∧ req.payload.data = g.options ∧
      (issueUpdate (some g) rt k1 event err d1 transport).2 = some g := by
  refine ⟨rfl, ?_⟩
  cases h : (reportErrorTry rt g event err .manual transport).2 with
  | ok u =>
    cases u
    exact ⟨(reportErrorTry rt g event err .manual transport).1, none,
      by simp [issueUpdate, ErrorMonitor.reportError, h], rfl, rfl, rfl⟩
  | error e =>
    exact ⟨(reportErrorTry rt g event err .manual transport).1, some e,
      by simp [issueUpdate, ErrorMonitor.reportError, h], rfl, rfl, rfl⟩

/-- Claim C8: the public singleton keeps at most one active monitor — when
`monitor(apiKey, options)` runs with an existing global monitor, that
monitor's `stop()` is applied to the environment before the new monitor is
constructed, started, and stored; and `issueUpdate` with no global monitor
reports through a throwaway monitor and leaves the global slot empty. -/
theorem singleton_discipline (g : Monitor) (env : Env) (key : String)
    (o : MonitorOptionsArg) (rt : Runtime) (key2 event : String) (err : ErrArg)
    (d : MonitorOptionsArg) (transport : FetchOutcome) :
    (monitorEntry (some g) env key o =
      ((ErrorMonitor.start (mkMonitor key o) (ErrorMonitor.stop g env).2).1,
       some (ErrorMonitor.start (mkMonitor key o) (ErrorMonitor.stop g env).2).1,
       (ErrorMonitor.start (mkMonitor key o) (ErrorMonitor.stop g env).2).2)) ∧
    (∀ glob : Option Monitor,
      (monitorEntry glob env key o).2.1 = some (monitorEntry glob env key o).1) ∧
    (issueUpdate none rt key2 event err d transport =
      (ErrorMonitor.reportError rt (mkMonitor key2 d) event err .manual transport,
       none)) := by
  refine ⟨rfl, ?_, rfl⟩
  intro glob
  cases glob <;> rfl

/-- Helper: every installation block of `start` leaves `isActive` alone. -/
theorem startSteps_isActive (m : Monitor) (env : Env) :
    (startStep1 m env).1.isActive = m.isActive ∧
    (startStep2 m env).1.isActive = m.isActive ∧
    (startStep3 m env).1.isActive = m.isActive ∧
    (startStep4 m env).1.isActive = m.isActive ∧
    (startStep5 m env).1.isActive = m.isActive ∧
    (startStep6 m env).1.isActive = m.isActive := by
  refine ⟨?_, ?_, ?_, ?_, ?_, ?_⟩ <;>
    · simp only [startStep1, startStep2, startStep3, startStep4, startStep5, startStep6]
      repeat' split
      all_goals rfl

/-- Helper: after `start` the monitor is active. -/
theorem start_isActive (m : Monitor) (env : Env) :
    (ErrorMonitor.start m env).1.isActive = true := by
  unfold ErrorMonitor.start
  split
  · next h => exact h
  · simp [(startSteps_isActive _ _).2.2.2.2.2, (startSteps_isActive _ _).2.2.2.2.1,
      (startSteps_isActive _ _).2.2.2.1, (startSteps_isActive _ _).2.2.1,
      (startSteps_isActive _ _).2.1, (startSteps_isActive _ _).1]

/-- Helper: after `stop` the monitor is inactive. -/
theorem stop_isActive (m : Monitor) (env : Env) :
    (ErrorMonitor.stop m env).1.isActive = false := by
  unfold ErrorMonitor.stop
  split
  · rfl
  · next h => simpa using h

/-- Claim C5: `start` twice in a row installs each hook exactly once — the
second call is the identity on monitor and environment; `stop` twice in
a row is a no-op on the second call. -/
theorem start_stop_idempotent (m : Monitor) (env : Env) :
    (ErrorMonitor.start (ErrorMonitor.start m env).1 (ErrorMonitor.start m env).2 =
      ErrorMonitor.start m env) ∧
    (ErrorMonitor.stop (ErrorMonitor.stop m env).1 (ErrorMonitor.stop m env).2 =
      ErrorMonitor.stop m env) := by
  constructor
  · rw [ErrorMonitor.start]
    simp [start_isActive m env]
  · rw [ErrorMonitor.stop]
    simp [stop_isActive m env]

/-- Claim C4 counterexample: on a stack whose matching frames are all in
`node_modules`, extraction does NOT fall back to the first matching frame —
every matching line overwrites the fields and the loop only breaks at a
clean frame, so the last matching frame survives. -/
theorem extract_fallback_counterexample :
    extractStackInfo
        "Error: x\n    at aa (/p/node_modules/a.js:1:2)\n    at bb (/p/node_modules/b.js:3:4)" =
      ⟨some "bb", some "/p/node_modules/b.js", some "3", some "4"⟩ ∧
    ¬ (extractStackInfo
        "Error: x\n    at aa (/p/node_modules/a.js:1:2)\n    at bb (/p/node_modules/b.js:3:4)" =
      ⟨some "aa", some "/p/node_modules/a.js", some "1", some "2"⟩) := by
  constructor
  · decide
  · decide

/-- Helper: when a line matches one of the patterns, the file field it
leaves in the accumulator is the one the match produced, whatever the
accumulated fields were. -/
theorem stepInfo_fileName (info : StackInfo) (l : String) (f : String)
    (h : lineMatchFile l = some f) : (stepInfo info l).fileName = some f := by
  unfold lineMatchFile at h
  unfold stepInfo
  cases h1 : reSearch pat1 l.data with
  | some caps => rw [h1] at h; simpa using h
  | none =>
    rw [h1] at h
    cases h2 : reSearch pat2 l.data with
    | some caps => rw [h2] at h; simpa using h
    | none => rw [h2] at h; exact absurd h (by simp)

/-- Helper: a line whose match yields an "internal" file (empty,
`node_modules`, or `internal/`) never triggers the break, whatever the
accumulated fields are. -/
theorem lineInternal_no_break (l : String) (hl : lineInternalB l = true)
    (info : StackInfo) : breakHere (stepInfo info l) = false := by
  unfold lineInternalB at hl
  cases hm : lineMatchFile l with
  | none => rw [hm] at hl; exact absurd hl (by simp)
  | some f =>
    rw [hm] at hl
    have hf := stepInfo_fileName info l f hm
    unfold breakHere
    rw [hf]
    simp only [Bool.or_eq_true] at hl
    rcases hl with (h | h) | h <;> simp [h]

/-- Helper: over lines that all match with internal files, the loop never
breaks, so it folds the matching step over every line — i.e. the fields end
up holding the LAST matching frame's data. -/
theorem extractLoop_all_internal (lines : List String) (info : StackInfo)
    (h : lines.all lineInternalB = true) :
    extractLoop lines info = lines.foldl stepInfo info := by
  induction lines generalizing info with
  | nil => rfl
  | cons l rest ih =>
    simp only [List.all_cons, Bool.and_eq_true] at h
    simp only [extractLoop, List.foldl_cons]
    rw [lineInternal_no_break l h.1 info]
    simpa using ih (stepInfo info l) h.2

/-- Helper: with internal matching frames before it, a later clean frame is
preferred — the loop breaks there and scanning stops. -/
theorem extractLoop_break_at (pre : List String) (l : String)
    (post : List String) (info : StackInfo)
    (hpre : pre.all lineInternalB = true)
    (hl : breakHere (stepInfo (pre.foldl stepInfo info) l) = true) :
    extractLoop (pre ++ l :: post) info = stepInfo (pre.foldl stepInfo info) l := by
  induction pre generalizing info with
  | nil =>
    simp only [List.foldl_nil] at hl
    simp [extractLoop, hl]
  | cons p rest ih =>
    simp only [List.all_cons, Bool.and_eq_true] at hpre
    simp only [List.cons_append, extractLoop]
    rw [lineInternal_no_break p hpre.1 info]
    simp only [if_neg (by simp : ¬ (false = true))]
    simp only [List.foldl_cons] at hl
    exact ih (stepInfo info p) hpre.2 hl

/-- Claim C4 (amended): the concrete example parses to
function "foo", file "/app/a.js", line "10", col "5"; a later frame whose
file contains neither marker is preferred over earlier matching frames (the
loop breaks there); the empty stack leaves all fields unset without
raising; but when every matching frame is internal (e.g. all in
`node_modules`), extraction falls back to the LAST matching frame (the
loop folds over all lines, each match overwriting the fields), not the
first. -/
theorem stack_extraction_amended :
    (extractStackInfo "Error: x\n    at foo (/app/a.js:10:5)" =
      ⟨some "foo", some "/app/a.js", some "10", some "5"⟩) ∧
    (∀ lines info, lines.all lineInternalB = true →
      extractLoop lines info = lines.foldl stepInfo info) ∧
    (∀ pre l post info, pre.all lineInternalB = true →
      breakHere (stepInfo (pre.foldl stepInfo info) l) = true →
      extractLoop (pre ++ l :: post) info = stepInfo (pre.foldl stepInfo info) l) ∧
    (extractStackInfo "" = emptyStackInfo) :=
  ⟨by decide, extractLoop_all_internal, extractLoop_break_at, by decide⟩

/-- Witness for the amended C4 theorem at concrete inputs: an
all-`node_modules` two-frame stack folds to the last frame, and a clean
frame after an internal one is where scanning stops. -/
theorem stack_extraction_amended_witness :
    (extractLoop
        ["    at aa (/p/node_modules/a.js:1:2)", "    at bb (/p/node_modules/b.js:3:4)"]
        emptyStackInfo =
      List.foldl stepInfo emptyStackInfo
        ["    at aa (/p/node_modules/a.js:1:2)", "    at bb (/p/node_modules/b.js:3:4)"]) ∧
    (extractLoop
        (["    at aa (/p/node_modules/a.js:1:2)"] ++ "    at cc (/app/c.js:7:8)" :: [])
        emptyStackInfo =
      stepInfo
        (List.foldl stepInfo emptyStackInfo ["    at aa (/p/node_modules/a.js:1:2)"])
        "    at cc (/app/c.js:7:8)") :=
  ⟨stack_extraction_amended.2.1 _ _ (by decide),
   stack_extraction_amended.2.2.1 _ _ _ _ (by decide) (by decide)⟩

/-- Helper: lookup after update in the handler registry. -/
theorem mapGet_mapSet (r : List (String × FRef)) (k k2 : String) (v : FRef) :
    mapGet (mapSet r k v) k2 = if k = k2 then some v else mapGet r k2 := by
  induction r with
  | nil => simp [mapGet, mapSet]
  | cons p rest ih =>
    obtain ⟨k3, v3⟩ := p
    by_cases h3 : k3 = k
    · subst h3
      by_cases h2 : k3 = k2 <;> simp [mapGet, mapSet, h2]
    · by_cases h2 : k3 = k2
      · subst h2
        have hk : ¬ k = k3 := fun h => h3 h.symm
        simp [mapGet, mapSet, h3, hk]
      · simp [mapGet, mapSet, h3, h2, ih]

/-- Helper: lookup distributes over a conditional registry. -/
theorem mapGet_ite (c : Prop) [Decidable c] (r1 r2 : List (String × FRef)) (k : String) :
    mapGet (if c then r1 else r2) k = if c then mapGet r1 k else mapGet r2 k := by
  split <;> rfl

/-- Helper: removing a freshly allocated reference undoes the append
(`process.removeListener`). -/
theorem erase_last_fresh (l : List FRef) (n h : FRef)
    (hl : l.all (fun r => decide (r < n)) = true) (hn : n ≤ h) :
    eraseLast (l ++ [h]) h = l := by
  have hmem : h ∉ l := by
    intro hm
    have h2 : h < n := by simpa using List.all_eq_true.mp hl h hm
    exact Nat.lt_irrefl h (Nat.lt_of_lt_of_le h2 hn)
  unfold eraseLast
  rw [List.reverse_append]
  simp [List.erase_cons_head, hmem]

/-- Helper: removing a freshly allocated reference undoes the append
(`window.removeEventListener`). -/
theorem erase_first_fresh (l : List FRef) (n h : FRef)
    (hl : l.all (fun r => decide (r < n)) = true) (hn : n ≤ h) :
    eraseFirst (l ++ [h]) h = l := by
  have hmem : h ∉ l := by
    intro hm
    have h2 : h < n := by simpa using List.all_eq_true.mp hl h hm
    exact Nat.lt_irrefl h (Nat.lt_of_lt_of_le h2 hn)
  unfold eraseFirst
  rw [List.erase_append_right _ hmem]
  simp

/-- Helper: closed form of installation block 1 (uncaught exceptions). -/
theorem startStep1_spec (m : Monitor) (env : Env) :
    (startStep1 m env).1.options = m.options ∧
    (startStep1 m env).1.apiKey = m.apiKey ∧
    (startStep1 m env).1.isActive = m.isActive ∧
    (startStep1 m env).2.hasProcess = env.hasProcess ∧
    (startStep1 m env).2.hasWindow = env.hasWindow ∧
    (startStep1 m env).2.hasConsole = env.hasConsole ∧
    (startStep1 m env).2.hasGlobal = env.hasGlobal ∧
    (startStep1 m env).2.consoleError = env.consoleError ∧
    (startStep1 m env).2.windowFetch = env.windowFetch ∧
    (startStep1 m env).2.globalFetch = env.globalFetch ∧
    (startStep1 m env).2.processRejectionListeners = env.processRejectionListeners ∧
    (startStep1 m env).2.windowRejectionListeners = env.windowRejectionListeners ∧
    (startStep1 m env).2.windowErrorListeners = env.windowErrorListeners ∧
    (startStep1 m env).2.processUncaughtListeners =
      (if env.hasProcess then env.processUncaughtListeners ++ [env.fresh]
       else env.processUncaughtListeners) ∧
    (startStep1 m env).2.fresh = (if env.hasProcess then env.fresh + 1 else env.fresh) ∧
    (startStep1 m env).1.originalHandlers =
      (if env.hasProcess then mapSet m.originalHandlers "uncaughtException" env.fresh
       else m.originalHandlers) := by
  unfold startStep1
  split <;> simp_all

/-- Helper: closed form of installation block 2 (promise rejections). -/
theorem startStep2_spec (m : Monitor) (env : Env) :
    (startStep2 m env).1.options = m.options ∧
    (startStep2 m env).1.apiKey = m.apiKey ∧
    (startStep2 m env).1.isActive = m.isActive ∧
    (startStep2 m env).2.hasProcess = env.hasProcess ∧
    (startStep2 m env).2.hasWindow = env.hasWindow ∧
    (startStep2 m env).2.hasConsole = env.hasConsole ∧
    (startStep2 m env).2.hasGlobal = env.hasGlobal ∧
    (startStep2 m env).2.consoleError = env.consoleError ∧
    (startStep2 m env).2.windowFetch = env.windowFetch ∧
    (startStep2 m env).2.globalFetch = env.globalFetch ∧
    (startStep2 m env).2.processUncaughtListeners = env.processUncaughtListeners ∧
    (startStep2 m env).2.windowErrorListeners = env.windowErrorListeners ∧
    (startStep2 m env).2.windowRejectionListeners =
      (if m.options.enablePromiseRejections then
        (if env.hasWindow then env.windowRejectionListeners ++ [env.fresh]
         else env.windowRejectionListeners)
       else env.windowRejectionListeners) ∧
    (startStep2 m env).2.processRejectionListeners =
      (if m.options.enablePromiseRejections then
        (if env.hasWindow then env.processRejectionListeners
         else if env.hasProcess then env.processRejectionListeners ++ [env.fresh]
         else env.processRejectionListeners)
       else env.processRejectionListeners) ∧
    (startStep2 m env).2.fresh =
      (if m.options.enablePromiseRejections then
        (if env.hasWindow then env.fresh + 1
         else if env.hasProcess then env.fresh + 1 else env.fresh)
       else env.fresh) ∧
    (startStep2 m env).1.originalHandlers =
      (if m.options.enablePromiseRejections then
        (if env.hasWindow then mapSet m.originalHandlers "unhandledrejection" env.fresh
         else if env.hasProcess then mapSet m.originalHandlers "unhandledRejection" env.fresh
         else m.originalHandlers)
       else m.originalHandlers) := by
  by_cases hepr : m.options.enablePromiseRejections = true <;>
    by_cases hw : env.hasWindow = true <;>
    by_cases hp : env.hasProcess = true <;>
    simp [startStep2, hepr, hw, hp]

/-- Helper: closed form of installation block 3 (console.error). -/
theorem startStep3_spec (m : Monitor) (env : Env) :
    (startStep3 m env).1.options = m.options ∧
    (startStep3 m env).1.apiKey = m.apiKey ∧
    (startStep3 m env).1.isActive = m.isActive ∧
    (startStep3 m env).2.hasProcess = env.hasProcess ∧
    (startStep3 m env).2.hasWindow = env.hasWindow ∧
    (startStep3 m env).2.hasConsole = env.hasConsole ∧
    (startStep3 m env).2.hasGlobal = env.hasGlobal ∧
    (startStep3 m env).2.windowFetch = env.windowFetch ∧
    (startStep3 m env).2.globalFetch = env.globalFetch ∧
    (startStep3 m env).2.processUncaughtListeners = env.processUncaughtListeners ∧
    (startStep3 m env).2.processRejectionListeners = env.processRejectionListeners ∧
    (startStep3 m env).2.windowRejectionListeners = env.windowRejectionListeners ∧
    (startStep3 m env).2.windowErrorListeners = env.windowErrorListeners ∧
    (startStep3 m env).2.consoleError =
      (if m.options.enableConsoleErrors && env.hasConsole then env.fresh
       else env.consoleError) ∧
    (startStep3 m env).2.fresh =
      (if m.options.enableConsoleErrors && env.hasConsole then env.fresh + 1
       else env.fresh) ∧
    (startStep3 m env).1.originalHandlers =
      (if m.options.enableConsoleErrors && env.hasConsole then
        mapSet m.originalHandlers "console.error" env.consoleError
       else m.originalHandlers) := by
  unfold startStep3
  split <;> simp_all

/-- Helper: closed form of installation block 4 (window error events). -/
theorem startStep4_spec (m : Monitor) (env : Env) :
    (startStep4 m env).1.options = m.options ∧
    (startStep4 m env).1.apiKey = m.apiKey ∧
    (startStep4 m env).1.isActive = m.isActive ∧
    (startStep4 m env).2.hasProcess = env.hasProcess ∧
    (startStep4 m env).2.hasWindow = env.hasWindow ∧
    (startStep4 m env).2.hasConsole = env.hasConsole ∧
    (startStep4 m env).2.hasGlobal = env.hasGlobal ∧
    (startStep4 m env).2.consoleError = env.consoleError ∧
    (startStep4 m env).2.windowFetch = env.windowFetch ∧
    (startStep4 m env).2.globalFetch = env.globalFetch ∧
    (startStep4 m env).2.processUncaughtListeners = env.processUncaughtListeners ∧
    (startStep4 m env).2.processRejectionListeners = env.processRejectionListeners ∧
    (startStep4 m env).2.windowRejectionListeners = env.windowRejectionListeners ∧
    (startStep4 m env).2.windowErrorListeners =
      (if env.hasWindow then env.windowErrorListeners ++ [env.fresh]
       else env.windowErrorListeners) ∧
    (startStep4 m env).2.fresh = (if env.hasWindow then env.fresh + 1 else env.fresh) ∧
    (startStep4 m env).1.originalHandlers =
      (if env.hasWindow then mapSet m.originalHandlers "error" env.fresh
       else m.originalHandlers) := by
  unfold startStep4
  split <;> simp_all

/-- Helper: closed form of installation block 5 (window.fetch). -/
theorem startStep5_spec (m : Monitor) (env : Env) :
    (startStep5 m env).1.options = m.options ∧
    (startStep5 m env).1.apiKey = m.apiKey ∧
    (startStep5 m env).1.isActive = m.isActive ∧
    (startStep5 m env).2.hasProcess = env.hasProcess ∧
    (startStep5 m env).2.hasWindow = env.hasWindow ∧
    (startStep5 m env).2.hasConsole = env.hasConsole ∧
    (startStep5 m env).2.hasGlobal = env.hasGlobal ∧
    (startStep5 m env).2.consoleError = env.consoleError ∧
    (startStep5 m env).2.globalFetch = env.globalFetch ∧
    (startStep5 m env).2.processUncaughtListeners = env.processUncaughtListeners ∧
    (startStep5 m env).2.processRejectionListeners = env.processRejectionListeners ∧
    (startStep5 m env).2.windowRejectionListeners = env.windowRejectionListeners ∧
    (startStep5 m env).2.windowErrorListeners = env.windowErrorListeners ∧
    (startStep5 m env).2.windowFetch =
      (if (m.options.enableFetchMonitoring && env.hasWindow) && env.windowFetch.isSome then
        some env.fresh
       else env.windowFetch) ∧
    (startStep5 m env).2.fresh =
      (if (m.options.enableFetchMonitoring && env.hasWindow) && env.windowFetch.isSome then
        env.fresh + 1
       else env.fresh) ∧
    (startStep5 m env).1.originalHandlers =
      (if (m.options.enableFetchMonitoring && env.hasWindow) && env.windowFetch.isSome then
        mapSet m.originalHandlers "fetch" (env.windowFetch.getD 0)
       else m.originalHandlers) := by
  by_cases hc : (m.options.enableFetchMonitoring && env.hasWindow) = true <;>
    cases hwf : env.windowFetch <;>
    simp [startStep5, hc, hwf]

/-- Helper: closed form of installation block 6 (global.fetch). -/
theorem startStep6_spec (m : Monitor) (env : Env) :
    (startStep6 m env).1.options = m.options ∧
    (startStep6 m env).1.apiKey = m.apiKey ∧
    (startStep6 m env).1.isActive = m.isActive ∧
    (startStep6 m env).2.hasProcess = env.hasProcess ∧
    (startStep6 m env).2.hasWindow = env.hasWindow ∧
    (startStep6 m env).2.hasConsole = env.hasConsole ∧
    (startStep6 m env).2.hasGlobal = env.hasGlobal ∧
    (startStep6 m env).2.consoleError = env.consoleError ∧
    (startStep6 m env).2.windowFetch = env.windowFetch ∧
    (startStep6 m env).2.processUncaughtListeners = env.processUncaughtListeners ∧
    (startStep6 m env).2.processRejectionListeners = env.processRejectionListeners ∧
    (startStep6 m env).2.windowRejectionListeners = env.windowRejectionListeners ∧
    (startStep6 m env).2.windowErrorListeners = env.windowErrorListeners ∧
    (startStep6 m env).2.globalFetch =
      (if (m.options.enableFetchMonitoring && env.hasGlobal) && env.globalFetch.isSome then
        some env.fresh
       else env.globalFetch) ∧
    (startStep6 m env).2.fresh =
      (if (m.options.enableFetchMonitoring && env.hasGlobal) && env.globalFetch.isSome then
        env.fresh + 1
       else env.fresh) ∧
    (startStep6 m env).1.originalHandlers =
      (if (m.options.enableFetchMonitoring && env.hasGlobal) && env.globalFetch.isSome then
        mapSet m.originalHandlers "global.fetch" (env.globalFetch.getD 0)
       else m.originalHandlers) := by
  by_cases hc : (m.options.enableFetchMonitoring && env.hasGlobal) = true <;>
    cases hgf : env.globalFetch <;>
    simp [startStep6, hc, hgf]

/-- Helper: `Option.isSome` distributes over a conditional. -/
theorem isSome_ite (c : Prop) [Decidable c] (a b : Option FRef) :
    (if c then a else b).isSome = if c then a.isSome else b.isSome := by
  split <;> rfl

/-- Helper: `Option.getD` distributes over a conditional. -/
theorem getD_ite (c : Prop) [Decidable c] (a b : Option FRef) (d : FRef) :
    (if c then a else b).getD d = if c then a.getD d else b.getD d := by
  split <;> rfl

/-- Helper: a present option is recovered from its default read. -/
theorem some_getD_of_isSome (o : Option FRef) (d : FRef) (h : o.isSome = true) :
    some (o.getD d) = o := by
  cases o <;> simp_all

/-- Helper: closed form of the `process` restoration block of `stop`. -/
theorem stopProcess_spec (reg : List (String × FRef)) (env : Env) :
    (stopProcess reg env).hasProcess = env.hasProcess ∧
    (stopProcess reg env).hasWindow = env.hasWindow ∧
    (stopProcess reg env).hasConsole = env.hasConsole ∧
    (stopProcess reg env).hasGlobal = env.hasGlobal ∧
    (stopProcess reg env).consoleError = env.consoleError ∧
    (stopProcess reg env).windowFetch = env.windowFetch ∧
    (stopProcess reg env).globalFetch = env.globalFetch ∧
    (stopProcess reg env).windowRejectionListeners = env.windowRejectionListeners ∧
    (stopProcess reg env).windowErrorListeners = env.windowErrorListeners ∧
    (stopProcess reg env).fresh = env.fresh ∧
    (stopProcess reg env).processUncaughtListeners =
      (if env.hasProcess && (mapGet reg "uncaughtException").isSome then
        eraseLast env.processUncaughtListeners ((mapGet reg "uncaughtException").getD 0)
       else env.processUncaughtListeners) ∧
    (stopProcess reg env).processRejectionListeners =
      (if env.hasProcess && (mapGet reg "unhandledRejection").isSome then
        eraseLast env.processRejectionListeners ((mapGet reg "unhandledRejection").getD 0)
       else env.processRejectionListeners) := by
  by_cases hp : env.hasProcess = true <;>
    cases h1 : mapGet reg "uncaughtException" <;>
    cases h2 : mapGet reg "unhandledRejection" <;>
    simp [stopProcess, hp, h1, h2]

/-- Helper: closed form of the `window` restoration block of `stop`. -/
theorem stopWindow_spec (reg : List (String × FRef)) (env : Env) :
    (stopWindow reg env).hasProcess = env.hasProcess ∧
    (stopWindow reg env).hasWindow = env.hasWindow ∧
    (stopWindow reg env).hasConsole = env.hasConsole ∧
    (stopWindow reg env).hasGlobal = env.hasGlobal ∧
    (stopWindow reg env).consoleError = env.consoleError ∧
    (stopWindow reg env).windowFetch = env.windowFetch ∧
    (stopWindow reg env).globalFetch = env.globalFetch ∧
    (stopWindow reg env).processUncaughtListeners = env.processUncaughtListeners ∧
    (stopWindow reg env).processRejectionListeners = env.processRejectionListeners ∧
    (stopWindow reg env).fresh = env.fresh ∧
    (stopWindow reg env).windowRejectionListeners =
      (if env.hasWindow && (mapGet reg "unhandledrejection").isSome then
        eraseFirst env.windowRejectionListeners ((mapGet reg "unhandledrejection").getD 0)
       else env.windowRejectionListeners) ∧
    (stopWindow reg env).windowErrorListeners =
      (if env.hasWindow && (mapGet reg "error").isSome then
        eraseFirst env.windowErrorListeners ((mapGet reg "error").getD 0)
       else env.windowErrorListeners) := by
  by_cases hw : env.hasWindow = true <;>
    cases h1 : mapGet reg "unhandledrejection" <;>
    cases h2 : mapGet reg "error" <;>
    simp [stopWindow, hw, h1, h2]

/-- Helper: closed form of the console restoration block of `stop`. -/
theorem stopConsole_spec (reg : List (String × FRef)) (env : Env) :
    (stopConsole reg env).hasProcess = env.hasProcess ∧
    (stopConsole reg env).hasWindow = env.hasWindow ∧
    (stopConsole reg env).hasConsole = env.hasConsole ∧
    (stopConsole reg env).hasGlobal = env.hasGlobal ∧
    (stopConsole reg env).windowFetch = env.windowFetch ∧
    (stopConsole reg env).globalFetch = env.globalFetch ∧
    (stopConsole reg env).processUncaughtListeners = env.processUncaughtListeners ∧
    (stopConsole reg env).processRejectionListeners = env.processRejectionListeners ∧
    (stopConsole reg env).windowRejectionListeners = env.windowRejectionListeners ∧
    (stopConsole reg env).windowErrorListeners = env.windowErrorListeners ∧
    (stopConsole reg env).fresh = env.fresh ∧
    (stopConsole reg env).consoleError =
      (if (mapGet reg "console.error").isSome && env.hasConsole then
        (mapGet reg "console.error").getD 0
       else env.consoleError) := by
  by_cases hc : env.hasConsole = true <;>
    cases h1 : mapGet reg "console.error" <;>
    simp [stopConsole, hc, h1]

/-- Helper: closed form of the window.fetch restoration block of `stop`. -/
theorem stopFetch_spec (reg : List (String × FRef)) (env : Env) :
    (stopFetch reg env).hasProcess = env.hasProcess ∧
    (stopFetch reg env).hasWindow = env.hasWindow ∧
    (stopFetch reg env).hasConsole = env.hasConsole ∧
    (stopFetch reg env).hasGlobal = env.hasGlobal ∧
    (stopFetch reg env).consoleError = env.consoleError ∧
    (stopFetch reg env).globalFetch = env.globalFetch ∧
    (stopFetch reg env).processUncaughtListeners = env.processUncaughtListeners ∧
    (stopFetch reg env).processRejectionListeners = env.processRejectionListeners ∧
    (stopFetch reg env).windowRejectionListeners = env.windowRejectionListeners ∧
    (stopFetch reg env).windowErrorListeners = env.windowErrorListeners ∧
    (stopFetch reg env).fresh = env.fresh ∧
    (stopFetch reg env).windowFetch =
      (if (mapGet reg "fetch").isSome && env.hasWindow then
        some ((mapGet reg "fetch").getD 0)
       else env.windowFetch) := by
  by_cases hw : env.hasWindow = true <;>
    cases h1 : mapGet reg "fetch" <;>
    simp [stopFetch, hw, h1]

/-- Helper: closed form of the global.fetch restoration block of `stop`. -/
theorem stopGlobalFetch_spec (reg : List (String × FRef)) (env : Env) :
    (stopGlobalFetch reg env).hasProcess = env.hasProcess ∧
    (stopGlobalFetch reg env).hasWindow = env.hasWindow ∧
    (stopGlobalFetch reg env).hasConsole = env.hasConsole ∧
    (stopGlobalFetch reg env).hasGlobal = env.hasGlobal ∧
    (stopGlobalFetch reg env).consoleError = env.consoleError ∧
    (stopGlobalFetch reg env).windowFetch = env.windowFetch ∧
    (stopGlobalFetch reg env).processUncaughtListeners = env.processUncaughtListeners ∧
    (stopGlobalFetch reg env).processRejectionListeners = env.processRejectionListeners ∧
    (stopGlobalFetch reg env).windowRejectionListeners = env.windowRejectionListeners ∧
    (stopGlobalFetch reg env).windowErrorListeners = env.windowErrorListeners ∧
    (stopGlobalFetch reg env).fresh = env.fresh ∧
    (stopGlobalFetch reg env).globalFetch =
      (if (mapGet reg "global.fetch").isSome && env.hasGlobal then
        some ((mapGet reg "global.fetch").getD 0)
       else env.globalFetch) := by
  by_cases hg : env.hasGlobal = true <;>
    cases h1 : mapGet reg "global.fetch" <;>
    simp [stopGlobalFetch, hg, h1]

/-- Claim C3 counterexample: the round-trip fails for an arbitrary Monitor —
an already-active monitor carrying a stale registry entry makes `start` a
no-op, and the subsequent `stop` overwrites `console.error` with the stale
reference (99) instead of the pre-start occupant (0). -/
theorem roundtrip_counterexample :
    ¬ ((ErrorMonitor.stop (ErrorMonitor.start staleMonitor sampleEnv).1
        (ErrorMonitor.start staleMonitor sampleEnv).2).2.consoleError =
      sampleEnv.consoleError) := by
  decide

set_option maxHeartbeats 1000000 in
/-- Claim C3 (amended): for every Monitor that is inactive with an empty
Handler Registry — the state of every freshly constructed or stopped
Monitor — and every well-formed initial state of the global slots,
`start()` followed by `stop()` restores `console.error`, `window.fetch`,
`global.fetch` and all four registered handler lists to their pre-start
contents, and leaves the Handler Registry empty. -/
theorem start_stop_roundtrip (m : Monitor) (env : Env)
    (hact : m.isActive = false) (hreg : m.originalHandlers = [])
    (hwf : env.wfb = true) :
    (ErrorMonitor.stop (ErrorMonitor.start m env).1
        (ErrorMonitor.start m env).2).1.originalHandlers = [] ∧
    (ErrorMonitor.stop (ErrorMonitor.start m env).1
        (ErrorMonitor.start m env).2).2.consoleError = env.consoleError ∧
    (ErrorMonitor.stop (ErrorMonitor.start m env).1
        (ErrorMonitor.start m env).2).2.windowFetch = env.windowFetch ∧
    (ErrorMonitor.stop (ErrorMonitor.start m env).1
        (ErrorMonitor.start m env).2).2.globalFetch = env.globalFetch ∧
    (ErrorMonitor.stop (ErrorMonitor.start m env).1
        (ErrorMonitor.start m env).2).2.processUncaughtListeners =
      env.processUncaughtListeners ∧
    (ErrorMonitor.stop (ErrorMonitor.start m env).1
        (ErrorMonitor.start m env).2).2.processRejectionListeners =
      env.processRejectionListeners ∧
    (ErrorMonitor.stop (ErrorMonitor.start m env).1
        (ErrorMonitor.start m env).2).2.windowRejectionListeners =
      env.windowRejectionListeners ∧
    (ErrorMonitor.stop (ErrorMonitor.start m env).1
        (ErrorMonitor.start m env).2).2.windowErrorListeners =
      env.windowErrorListeners := by
  simp only [Env.wfb, Bool.and_eq_true] at hwf
  obtain ⟨⟨⟨hwf1, hwf2⟩, hwf3⟩, hwf4⟩ := hwf
  have epul : ∀ h, env.fresh ≤ h →
      eraseLast (env.processUncaughtListeners ++ [h]) h = env.processUncaughtListeners :=
    fun h hn => erase_last_fresh _ _ _ hwf1 hn
  have eprl : ∀ h, env.fresh ≤ h →
      eraseLast (env.processRejectionListeners ++ [h]) h = env.processRejectionListeners :=
    fun h hn => erase_last_fresh _ _ _ hwf2 hn
  have ewrl : ∀ h, env.fresh ≤ h →
      eraseFirst (env.windowRejectionListeners ++ [h]) h = env.windowRejectionListeners :=
    fun h hn => erase_first_fresh _ _ _ hwf3 hn
  have ewel : ∀ h, env.fresh ≤ h →
      eraseFirst (env.windowErrorListeners ++ [h]) h = env.windowErrorListeners :=
    fun h hn => erase_first_fresh _ _ _ hwf4 hn
  refine ⟨?_, ?_, ?_, ?_, ?_, ?_, ?_, ?_⟩ <;>
    simp [ErrorMonitor.start, ErrorMonitor.stop, hact, hreg,
          startStep1_spec, startStep2_spec, startStep3_spec, startStep4_spec,
          startStep5_spec, startStep6_spec,
          stopProcess_spec, stopWindow_spec, stopConsole_spec, stopFetch_spec,
          stopGlobalFetch_spec, mapGet_ite, mapGet_mapSet, mapGet,
          isSome_ite, getD_ite] <;>
    split_ifs <;>
    simp_all [epul, eprl, ewrl, ewel, Nat.le_add_right, Nat.add_assoc,
              some_getD_of_isSome]

/-- Witness for the amended C3 theorem: a fresh monitor with default options
on a fully populated well-formed environment. -/
theorem start_stop_roundtrip_witness :
    (ErrorMonitor.stop (ErrorMonitor.start (mkMonitor "k" noOptions) sampleEnv).1
        (ErrorMonitor.start (mkMonitor "k" noOptions) sampleEnv).2).1.originalHandlers = [] ∧
    (ErrorMonitor.stop (ErrorMonitor.start (mkMonitor "k" noOptions) sampleEnv).1
        (ErrorMonitor.start (mkMonitor "k" noOptions) sampleEnv).2).2.consoleError =
      sampleEnv.consoleError ∧
    (ErrorMonitor.stop (ErrorMonitor.start (mkMonitor "k" noOptions) sampleEnv).1
        (ErrorMonitor.start (mkMonitor "k" noOptions) sampleEnv).2).2.windowFetch =
      sampleEnv.windowFetch ∧
    (ErrorMonitor.stop (ErrorMonitor.start (mkMonitor "k" noOptions) sampleEnv).1
        (ErrorMonitor.start (mkMonitor "k" noOptions) sampleEnv).2).2.globalFetch =
      sampleEnv.globalFetch ∧
    (ErrorMonitor.stop (ErrorMonitor.start (mkMonitor "k" noOptions) sampleEnv).1
        (ErrorMonitor.start (mkMonitor "k" noOptions) sampleEnv).2).2.processUncaughtListeners =
      sampleEnv.processUncaughtListeners ∧
    (ErrorMonitor.stop (ErrorMonitor.start (mkMonitor "k" noOptions) sampleEnv).1
        (ErrorMonitor.start (mkMonitor "k" noOptions) sampleEnv).2).2.processRejectionListeners =
      sampleEnv.processRejectionListeners ∧
    (ErrorMonitor.stop (ErrorMonitor.start (mkMonitor "k" noOptions) sampleEnv).1
        (ErrorMonitor.start (mkMonitor "k" noOptions) sampleEnv).2).2.windowRejectionListeners =
      sampleEnv.windowRejectionListeners ∧
    (ErrorMonitor.stop (ErrorMonitor.start (mkMonitor "k" noOptions) sampleEnv).1
        (ErrorMonitor.start (mkMonitor "k" noOptions) sampleEnv).2).2.windowErrorListeners =
      sampleEnv.windowErrorListeners :=
  start_stop_roundtrip (mkMonitor "k" noOptions) sampleEnv rfl rfl (by decide)

/-- Claim C6 counterexample: with every configuration toggle disabled,
`start()` still installs the uncaught-exception hook (the listener list
grows) — that interception point has no gating toggle at all (and neither
does the browser `error`-event handler). -/
theorem gating_counterexample :
    (mergeOptions allTogglesOff).enableConsoleErrors = false ∧
    (mergeOptions allTogglesOff).enablePromiseRejections = false ∧
    (mergeOptions allTogglesOff).enableFetchMonitoring = false ∧
    (mergeOptions allTogglesOff).monitorHttpErrors = false ∧
    (ErrorMonitor.start (mkMonitor "k" allTogglesOff) nodeEnv).2.processUncaughtListeners ≠
      nodeEnv.processUncaughtListeners := by
  decide

set_option maxHeartbeats 1000000 in
/-- Claim C6 (amended): the promise-rejection, console-error and
fetch-monitoring interception points are each gated by their own toggle —
disabling the toggle leaves the corresponding slots untouched — but the
uncaught-exception hook and the window error-event hook are installed
unconditionally whenever the corresponding facility exists, with no
configuration toggle. -/
theorem gating_amended (m : Monitor) (env : Env) (hact : m.isActive = false) :
    (m.options.enablePromiseRejections = false →
      (ErrorMonitor.start m env).2.windowRejectionListeners = env.windowRejectionListeners ∧
      (ErrorMonitor.start m env).2.processRejectionListeners = env.processRejectionListeners) ∧
    (m.options.enableConsoleErrors = false →
      (ErrorMonitor.start m env).2.consoleError = env.consoleError) ∧
    (m.options.enableFetchMonitoring = false →
      (ErrorMonitor.start m env).2.windowFetch = env.windowFetch ∧
      (ErrorMonitor.start m env).2.globalFetch = env.globalFetch) ∧
    (env.hasProcess = true →
      (ErrorMonitor.start m env).2.processUncaughtListeners =
        env.processUncaughtListeners ++ [env.fresh]) ∧
    (env.hasWindow = true → ∃ h,
      (ErrorMonitor.start m env).2.windowErrorListeners = env.windowErrorListeners ++ [h]) := by
  refine ⟨fun h => ?_, fun h => ?_, fun h => ?_, fun h => ?_, fun h => ?_⟩ <;>
    simp [ErrorMonitor.start, hact, h, startStep1_spec, startStep2_spec,
          startStep3_spec, startStep4_spec, startStep5_spec, startStep6_spec]

/-- Witness for the amended C6 theorem: all toggles off, yet on an
environment with `process` present the uncaught-exception listener is
installed, while `console.error` stays untouched. -/
theorem gating_amended_witness :
    (ErrorMonitor.start (mkMonitor "k" allTogglesOff) sampleEnv).2.consoleError =
      sampleEnv.consoleError ∧
    (ErrorMonitor.start (mkMonitor "k" allTogglesOff) sampleEnv).2.processUncaughtListeners =
      sampleEnv.processUncaughtListeners ++ [sampleEnv.fresh] :=
  ⟨(gating_amended (mkMonitor "k" allTogglesOff) sampleEnv rfl).2.1 rfl,
   (gating_amended (mkMonitor "k" allTogglesOff) sampleEnv rfl).2.2.2.1 rfl⟩

/-- Claim C7 counterexample: after `start()` on a Node-like environment the
registry entry for the uncaught-exception hook holds the newly created
handler (the freshly allocated reference 10), which no pre-start slot or
handler list contained — not an original, pre-patched occupant. -/
theorem registry_counterexample :
    mapGet (ErrorMonitor.start (mkMonitor "k" noOptions) nodeEnv).1.originalHandlers
        "uncaughtException" = some 10 ∧
    Env.mentions nodeEnv 10 = false := by
  decide

set_option maxHeartbeats 1000000 in
/-- Claim C7 (amended): after `start()` the Handler Registry maps
"console.error", "fetch" and "global.fetch" to the original, pre-patched
references, but the entries for the uncaught-exception,
unhandled-rejection and window-error hooks hold the newly created handler
(the one just registered, retained only so it can be removed later), not a
pre-existing occupant of any slot. -/
theorem registry_amended (m : Monitor) (env : Env)
    (hact : m.isActive = false) (hreg : m.originalHandlers = []) :
    mapGet (ErrorMonitor.start m env).1.originalHandlers "console.error" =
      (if m.options.enableConsoleErrors && env.hasConsole then some env.consoleError
       else none) ∧
    mapGet (ErrorMonitor.start m env).1.originalHandlers "fetch" =
      (if (m.options.enableFetchMonitoring && env.hasWindow) && env.windowFetch.isSome then
        env.windowFetch else none) ∧
    mapGet (ErrorMonitor.start m env).1.originalHandlers "global.fetch" =
      (if (m.options.enableFetchMonitoring && env.hasGlobal) && env.globalFetch.isSome then
        env.globalFetch else none) ∧
    (env.hasProcess = true →
      mapGet (ErrorMonitor.start m env).1.originalHandlers "uncaughtException" =
        some env.fresh ∧
      (ErrorMonitor.start m env).2.processUncaughtListeners =
        env.processUncaughtListeners ++ [env.fresh]) ∧
    (env.hasWindow = true → ∃ h, env.fresh ≤ h ∧
      mapGet (ErrorMonitor.start m env).1.originalHandlers "error" = some h ∧
      (ErrorMonitor.start m env).2.windowErrorListeners =
        env.windowErrorListeners ++ [h]) ∧
    (m.options.enablePromiseRejections = true → env.hasWindow = true → ∃ h, env.fresh ≤ h ∧
      mapGet (ErrorMonitor.start m env).1.originalHandlers "unhandledrejection" = some h ∧
      (ErrorMonitor.start m env).2.windowRejectionListeners =
        env.windowRejectionListeners ++ [h]) ∧
    (m.options.enablePromiseRejections = true → env.hasWindow = false →
      env.hasProcess = true → ∃ h, env.fresh ≤ h ∧
      mapGet (ErrorMonitor.start m env).1.originalHandlers "unhandledRejection" = some h ∧
      (ErrorMonitor.start m env).2.processRejectionListeners =
        env.processRejectionListeners ++ [h]) := by
  refine ⟨?_, ?_, ?_, fun hp => ?_, fun hw => ?_, fun hepr hw => ?_,
    fun hepr hw hp => ?_⟩ <;>
    simp [ErrorMonitor.start, hact, hreg, startStep1_spec, startStep2_spec,
          startStep3_spec, startStep4_spec, startStep5_spec, startStep6_spec,
          mapGet_ite, mapGet_mapSet, mapGet, isSome_ite, getD_ite] <;>
    (try split_ifs) <;>
    simp_all [some_getD_of_isSome, Nat.le_add_right, Nat.add_assoc]

/-- Witness for the amended C7 theorem: default options on the populated
environment — the console entry stores the original sink, and the uncaught
hook entry matches the freshly installed listener. -/
theorem registry_amended_witness :
    mapGet (ErrorMonitor.start (mkMonitor "k" noOptions) sampleEnv).1.originalHandlers
        "console.error" =
      (if (mkMonitor "k" noOptions).options.enableConsoleErrors && sampleEnv.hasConsole then
        some sampleEnv.consoleError else none) ∧
    (ErrorMonitor.start (mkMonitor "k" noOptions) sampleEnv).2.processUncaughtListeners =
      sampleEnv.processUncaughtListeners ++ [sampleEnv.fresh] :=
  ⟨(registry_amended (mkMonitor "k" noOptions) sampleEnv rfl rfl).1,
   ((registry_amended (mkMonitor "k" noOptions) sampleEnv rfl rfl).2.2.2.1 rfl).2⟩
